import Mathlib

/-!
Shallow embedding of the core of the `localLLM_test` backend (Rust, axum):
the JWT token codec (`src/backend/src/auth/jwt.rs`), the auth middleware
(`src/backend/src/auth/middleware.rs`), the retrieval-result extraction and
SSE relay stream (`src/backend/src/routes/chat.rs`), and the refresh
handler's verification call (`src/backend/src/routes/auth.rs`).

Modelling conventions:
- machine time (`chrono::Utc::now().timestamp()`) is an explicit `Int`
  parameter `now` (seconds since epoch);
- the HMAC signature produced by the `jsonwebtoken` crate is idealized as the
  pair (key, signed claims): two tags agree exactly when both the key and the
  signed payload agree, which is the standard EUF-CMA idealization of a MAC;
- `jsonwebtoken::decode` with `Validation::default()` (the crate's 8.x/9.x
  default, matching the axum-0.7-era code) first checks the signature and only
  then validates `exp` with the default leeway of 60 seconds: the token is
  rejected as expired iff `exp < now - 60`;
- JSON values (`serde_json::Value`) are an inductive `Json`; numbers are
  modelled as `Rat` (no arithmetic is ever performed on them, they are only
  extracted or defaulted);
- strings flowing through the relay's frame buffer are `List Char` so that
  the byte/char-level buffer manipulation is structural.
-/

set_option autoImplicit false

namespace LocalLLM

/-! ## Token codec: `src/backend/src/auth/jwt.rs` -/

/-- The claims structure of `jwt.rs` (lines 6–13): `sub`, `username`, `role`,
`exp`, `iat`.  Note there is no field marking the token type. -/
structure Claims where
  sub : String
  username : String
  role : String
  exp : Int
  iat : Int
deriving DecidableEq, Repr

/-- Idealized symmetric-key MAC tag: the `jsonwebtoken` HMAC over the claims.
Two tags are equal exactly when key and payload are equal. -/
def macSign (secret : String) (c : Claims) : String × Claims := (secret, c)

/-- A signed token: claims plus signature tag. -/
structure Token where
  claims : Claims
  tag : String × Claims
deriving DecidableEq, Repr

/-- Error kinds of `jsonwebtoken` relevant here. -/
inductive JwtError where
  | invalidSignature
  | expiredSignature
  | malformed
deriving DecidableEq, Repr

/-- Leeway of `Validation::default()` in the `jsonwebtoken` crate (8.x/9.x):
60 seconds. -/
def validationLeeway : Int := 60

/-- Model of `create_access_token` (jwt.rs lines 15–35): claims with `iat = now`,
`exp = now + expiry_secs`, signed with `secret`.  `user_id.to_string()` is
modelled by passing the subject as a string.  The Rust function returns
`Result` only because serialization could fail; for this claims shape it
always succeeds, so the model is total. -/
def create_access_token (user_id username role secret : String)
    (expiry_secs now : Int) : Token :=
  let claims : Claims :=
    { sub := user_id, username := username, role := role
      exp := now + expiry_secs, iat := now }
  { claims := claims, tag := macSign secret claims }

/-- Model of `create_refresh_token` (jwt.rs lines 37–56): same, fixed 7-day expiry
(`Duration::days(7)` = 604800 seconds). -/
def create_refresh_token (user_id username role secret : String)
    (now : Int) : Token :=
  let claims : Claims :=
    { sub := user_id, username := username, role := role
      exp := now + 604800, iat := now }
  { claims := claims, tag := macSign secret claims }

/-- Model of `verify_token` (jwt.rs lines 58–65): `jsonwebtoken::decode` with
`Validation::default()`.  The crate checks the signature first; if it is
valid it then validates the claims, rejecting as expired iff
`exp < now - leeway` with the default 60-second leeway. -/
def verify_token (tok : Token) (secret : String) (now : Int) :
    Except JwtError Claims :=
  if tok.tag = macSign secret tok.claims then
    if tok.claims.exp < now - validationLeeway then
      .error .expiredSignature
    else
      .ok tok.claims
  else
    .error .invalidSignature

/-- The verification call the refresh handler performs on the presented
refresh token (`routes/auth.rs` line 82): literally `jwt::verify_token`. -/
def refresh_verify (tok : Token) (secret : String) (now : Int) :
    Except JwtError Claims :=
  verify_token tok secret now

/-! ## JSON values (`serde_json::Value`) -/

/-- Shallow model of `serde_json::Value`; numbers are `Rat` (only extracted
or defaulted, never computed with). -/
inductive Json where
  | null
  | bool (b : Bool)
  | num (q : Rat)
  | str (s : String)
  | arr (items : List Json)
  | obj (fields : List (String × Json))

/-- Field access `Value::get(key)` on an object: lookup of the first matching field. -/
def Json.get : Json → String → Option Json
  | .obj fields, key => fields.lookup key
  | _, _ => none

/-- Accessor `Value::as_str`. -/
def Json.as_str : Json → Option String
  | .str s => some s
  | _ => none

/-- Accessor `Value::as_f64`: any JSON number. -/
def Json.as_f64 : Json → Option Rat
  | .num q => some q
  | _ => none

/-- Accessor `Value::as_array`. -/
def Json.as_array : Json → Option (List Json)
  | .arr items => some items
  | _ => none

/-! ## Session guard: `src/backend/src/auth/middleware.rs` -/

/-- The `AuthUser` extension attached to the request (middleware.rs
lines 13–18); `user_id` holds the parsed UUID, modelled as its string. -/
structure AuthUser where
  user_id : String
  username : String
  role : String
deriving DecidableEq, Repr

/-- A produced HTTP response: status code and JSON body. -/
structure HttpResponse where
  status : Nat
  body : Json

/-- axum `StatusCode::UNAUTHORIZED`. -/
def unauthorizedStatus : Nat := 401

/-- The middleware's rejection body
`{"success": false, "error": {"code": "UNAUTHORIZED", "message": msg}}`. -/
def unauthorizedBody (msg : String) : Json :=
  .obj [("success", .bool false),
        ("error", .obj [("code", .str "UNAUTHORIZED"),
                        ("message", .str msg)])]

/-- Outcome of the middleware: either a rejection response, or the request
proceeds with an `AuthUser` attached. -/
inductive AuthOutcome where
  | rejected (resp : HttpResponse)
  | accepted (user : AuthUser)

/-- Credential extraction of middleware.rs lines 25–45: take the
`Authorization` header (already `None` if absent or not valid ASCII), and
return the token substring iff the value starts with `"Bearer "`
(`&h[7..]`; the prefix is 7 ASCII characters, so byte index 7 is character
index 7). -/
def extractBearerToken (header : Option String) : Option String :=
  match header with
  | some h =>
      if ("Bearer ".toList).isPrefixOf h.toList then
        some ⟨h.toList.drop 7⟩
      else none
  | none => none

/-- Model of `auth_middleware` (middleware.rs lines 20–86).  The call to
`jwt::verify_token` on the extracted token string and the call to
`uuid::Uuid::parse_str` on `claims.sub` are the `verify` and `parseUuid`
parameters (they run on serialized strings, which the token model keeps
abstract).  The three rejection paths return the three distinct bodies of
the source. -/
def auth_middleware (verify : String → Except JwtError Claims)
    (parseUuid : String → Option String) (header : Option String) :
    AuthOutcome :=
  match extractBearerToken header with
  | none =>
      .rejected ⟨unauthorizedStatus,
        unauthorizedBody "Missing or invalid authorization header"⟩
  | some token =>
      match verify token with
      | .ok claims =>
          match parseUuid claims.sub with
          | none =>
              .rejected ⟨unauthorizedStatus, unauthorizedBody "Invalid token"⟩
          | some uid =>
              .accepted ⟨uid, claims.username, claims.role⟩
      | .error _ =>
          .rejected ⟨unauthorizedStatus,
            unauthorizedBody "Invalid or expired token"⟩

/-! ## Retrieval bridge: `src/backend/src/routes/chat.rs` -/

/-- The `Source` citation record (chat.rs lines 25–31); `score: f64` is
modelled as `Rat` (pass-through only). -/
structure Source where
  document_id : String
  file_name : String
  heading : String
  score : Rat
deriving DecidableEq, Repr

/-- Model of `extract_search_results` (chat.rs lines 88–139): walk
`search_body.data.results`; for each item with a `payload`, push its
non-empty `text` onto the context list, and always push a `Source` whose
absent fields default to `""` / `0`.  An item without `payload` is skipped
entirely (`continue`). -/
def extract_search_results (search_body : Json) : List String × List Source :=
  let results := ((search_body.get "data").bind (fun d => d.get "results")).bind
    Json.as_array
  match results with
  | none => ([], [])
  | some items =>
      items.foldl
        (fun acc item =>
          match item.get "payload" with
          | none => acc
          | some payload =>
              let text := ((payload.get "text").bind Json.as_str).getD ""
              let texts :=
                if text ≠ "" then acc.1 ++ [text] else acc.1
              let score := ((item.get "score").bind Json.as_f64).getD 0
              let src : Source :=
                { document_id :=
                    ((payload.get "document_id").bind Json.as_str).getD ""
                  file_name :=
                    ((payload.get "file_name").bind Json.as_str).getD ""
                  heading :=
                    ((payload.get "heading").bind Json.as_str).getD ""
                  score := score }
              (texts, acc.2 ++ [src]))
        ([], [])

/-- The context-fetch step of `chat_stream` (chat.rs lines 49–67): the outer
`Except` is the `reqwest` send result, the inner one the body-parse result;
both failure arms return `(Vec::new(), Vec::new())` (a timeout surfaces as a
send error and lands in the outer arm). -/
def fetch_context (response : Except Unit (Except Unit Json)) :
    List String × List Source :=
  match response with
  | .ok (.ok search_body) => extract_search_results search_body
  | .ok (.error _) => ([], [])
  | .error _ => ([], [])

/-! ## Stream relay: `build_sse_stream` (chat.rs lines 145–226) -/

/-- One outbound SSE event; each constructor corresponds to one JSON body
the source serializes: `{"sources": [...]}`, `{"content": s}`,
`{"error": msg}`, `{"done": true}`. -/
inductive OutEvent where
  | sources (cites : List Source)
  | token (content : String)
  | errorNotice (msg : String)
  | done
deriving DecidableEq, Repr

def OutEvent.isSources : OutEvent → Bool
  | .sources _ => true
  | _ => false

def OutEvent.isToken : OutEvent → Bool
  | .token _ => true
  | _ => false

def OutEvent.isErrorNotice : OutEvent → Bool
  | .errorNotice _ => true
  | _ => false

def OutEvent.isDone : OutEvent → Bool
  | .done => true
  | _ => false

/-- Rust `trim_end_matches` with a carriage-return pattern: remove every trailing carriage
return. -/
def trimEndCr (l : List Char) : List Char :=
  (l.reverse.dropWhile (fun c => c = '\r')).reverse

/-- The buffer loop of chat.rs lines 206–220, as a splitting function:
cut the buffer at each line feed.  Returns the complete lines (without
their terminating `'\n'`, untrimmed) and the trailing partial line. -/
def splitLines : List Char → List (List Char) × List Char
  | [] => ([], [])
  | c :: rest =>
      if c = '\n' then
        let r := splitLines rest
        ([] :: r.1, r.2)
      else
        match splitLines rest with
        | ([], rem) => ([], c :: rem)
        | (l :: ls, rem) => ((c :: l) :: ls, rem)

/-- One pass of the `while let Some(newline_pos) = buffer.find('\n')` loop:
extract every complete line (with trailing carriage returns stripped, as
`trim_end_matches('\r')` does) and keep the partial remainder. -/
def extractLines (buffer : List Char) : List (List Char) × List Char :=
  let r := splitLines buffer
  (r.1.map trimEndCr, r.2)

/-- Processing of one complete line (chat.rs lines 211–219):
`line.strip_prefix("data: ")`, then `serde_json::from_str` (the `parse`
parameter stands for the external JSON parser), then emit the
`content` field as one token event; anything else yields nothing. -/
def lineEvent (parse : List Char → Option Json) (line : List Char) :
    Option OutEvent :=
  if ("data: ".toList).isPrefixOf line then
    match parse (line.drop 6) with
    | some data_value =>
        match (data_value.get "content").bind Json.as_str with
        | some content => some (.token content)
        | none => none
    | none => none
  else none

/-- The result of reading one upstream chunk (chat.rs lines 186–201):
a read error (`Err(e)` → `break`), a chunk that is not valid UTF-8
(`continue`), or a decoded text chunk. -/
inductive ChunkResult where
  | readErr
  | badUtf8
  | ok (text : List Char)
deriving DecidableEq, Repr

/-- The drain loop (chat.rs lines 186–221): append each good chunk to the
frame buffer, extract complete lines, emit their token events; a bad-UTF-8
chunk is skipped; a read error breaks out immediately.  Returns the emitted
events and the final buffer. -/
def drainChunks (parse : List Char → Option Json) :
    List ChunkResult → List Char → List OutEvent × List Char
  | [], buffer => ([], buffer)
  | .readErr :: _, buffer => ([], buffer)
  | .badUtf8 :: rest, buffer => drainChunks parse rest buffer
  | .ok text :: rest, buffer =>
      let r := extractLines (buffer ++ text)
      let events := r.1.filterMap (lineEvent parse)
      let more := drainChunks parse rest r.2
      (events ++ more.1, more.2)

/-- Model of `reqwest::StatusCode::is_success()`: 200 ≤ code < 300. -/
def statusIsSuccess (code : Nat) : Bool :=
  200 ≤ code && code < 300

/-- The dial result: connection failure (`Err`), or a response with a status
code and a stream of chunk-read results. -/
inductive DialResult where
  | connError
  | response (status : Nat) (chunks : List ChunkResult)

/-- Model of `build_sse_stream` (chat.rs lines 145–226) as the event sequence it
yields: first the sources event; on connection failure or a non-success
status, one error notice then the done event; otherwise the drained token
events followed by the done event. -/
def build_sse_stream (parse : List Char → Option Json) (dial : DialResult)
    (sources : List Source) : List OutEvent :=
  OutEvent.sources sources ::
    match dial with
    | .connError =>
        [.errorNotice "LLM service unavailable", .done]
    | .response status chunks =>
        if statusIsSuccess status then
          (drainChunks parse chunks []).1 ++ [.done]
        else
          [.errorNotice "LLM service returned an error", .done]

/-- The per-chunk view of the buffer loop (chat.rs lines 203–220): append
the chunk to the buffer, extract the complete lines, keep the remainder;
this is exactly what `drainChunks` does with each good chunk, with the
extracted lines collected instead of their token events
(see `drainChunks_map_ok`). -/
def feedChunks : List (List Char) → List Char → List (List Char) × List Char
  | [], buffer => ([], buffer)
  | c :: cs, buffer =>
      let r := extractLines (buffer ++ c)
      let more := feedChunks cs r.2
      (r.1 ++ more.1, more.2)

/-! ## Helper lemmas about the relay -/

/-- A buffer without a line feed yields no line and stays untouched. -/
theorem splitLines_no_newline : ∀ (p : List Char), '\n' ∉ p →
    splitLines p = ([], p) := by
  intro p
  induction p with
  | nil => intro _; rfl
  | cons c rest ih =>
      intro hp
      have hc : c ≠ '\n' := fun h => hp (h ▸ List.mem_cons_self c rest)
      have hrest : '\n' ∉ rest := fun h => hp (List.mem_cons_of_mem c h)
      rw [splitLines, if_neg hc, ih hrest]

/-- The first extracted line is exactly the prefix before the first line
feed. -/
theorem splitLines_line : ∀ (l : List Char), '\n' ∉ l →
    ∀ rest : List Char,
      splitLines (l ++ '\n' :: rest)
        = (l :: (splitLines rest).1, (splitLines rest).2) := by
  intro l
  induction l with
  | nil =>
      intro _ rest
      rw [List.nil_append, splitLines, if_pos rfl]
  | cons c l' ih =>
      intro hl rest
      have hc : c ≠ '\n' := fun h => hl (h ▸ List.mem_cons_self c l')
      have hl' : '\n' ∉ l' := fun h => hl (List.mem_cons_of_mem c h)
      rw [List.cons_append, splitLines, if_neg hc, ih hl' rest]

/-- The remainder left by the splitter never contains a line feed. -/
theorem splitLines_rem : ∀ (buf : List Char), '\n' ∉ (splitLines buf).2 := by
  intro buf
  induction buf with
  | nil => simp [splitLines]
  | cons c rest ih =>
      rw [splitLines]
      by_cases hc : c = '\n'
      · rw [if_pos hc]
        exact ih
      · rw [if_neg hc]
        rcases h : splitLines rest with ⟨ls, rem⟩
        rw [h] at ih
        cases ls with
        | nil =>
            intro hmem
            rcases List.mem_cons.mp hmem with h1 | h1
            · exact hc h1.symm
            · exact ih h1
        | cons l ls' => exact ih

/-- No extracted line contains a line feed. -/
theorem splitLines_lines : ∀ (a : List Char),
    ∀ l ∈ (splitLines a).1, '\n' ∉ l := by
  intro a
  induction a with
  | nil => intro l hl; simp [splitLines] at hl
  | cons c rest ih =>
      intro l hl
      rw [splitLines] at hl
      by_cases hc : c = '\n'
      · rw [if_pos hc] at hl
        rcases List.mem_cons.mp hl with h1 | h1
        · subst h1; simp
        · exact ih l h1
      · rw [if_neg hc] at hl
        rcases h : splitLines rest with ⟨ls, rem⟩
        rw [h] at hl ih
        cases ls with
        | nil => simp at hl
        | cons l0 ls' =>
            rcases List.mem_cons.mp hl with h1 | h1
            · subst h1
              intro hmem
              rcases List.mem_cons.mp hmem with h2 | h2
              · exact hc h2.symm
              · exact ih l0 (List.mem_cons_self l0 ls') h2
            · exact ih l (List.mem_cons_of_mem l0 h1)

/-- Re-gluing the extracted lines (each with its line feed) and the
remainder reconstructs the original buffer. -/
theorem splitLines_decomp : ∀ (a : List Char),
    ((splitLines a).1.map (fun l => l ++ ['\n'])).flatten
      ++ (splitLines a).2 = a := by
  intro a
  induction a with
  | nil => rfl
  | cons c rest ih =>
      rw [splitLines]
      by_cases hc : c = '\n'
      · subst hc
        rw [if_pos rfl]
        simpa using ih
      · rw [if_neg hc]
        rcases h : splitLines rest with ⟨ls, rem⟩
        rw [h] at ih
        cases ls with
        | nil => simpa using ih
        | cons l ls' =>
            simp only [List.map_cons, List.flatten_cons,
              List.append_assoc] at ih ⊢
            simpa using ih

/-- Splitting lines-plus-tail: the prepared complete lines come off the
front and splitting continues on the tail. -/
theorem splitLines_flatten_any : ∀ (ls : List (List Char)) (t : List Char),
    (∀ l ∈ ls, '\n' ∉ l) →
    splitLines ((ls.map (fun l => l ++ ['\n'])).flatten ++ t)
      = (ls ++ (splitLines t).1, (splitLines t).2) := by
  intro ls
  induction ls with
  | nil => intro t _; simp
  | cons l ls' ih =>
      intro t hls
      have hl : '\n' ∉ l := hls l (List.mem_cons_self l ls')
      have hls' : ∀ x ∈ ls', '\n' ∉ x :=
        fun x hx => hls x (List.mem_cons_of_mem l hx)
      have hsplit : ((l :: ls').map (fun l => l ++ ['\n'])).flatten ++ t
          = l ++ '\n' :: ((ls'.map (fun l => l ++ ['\n'])).flatten ++ t) := by
        simp
      rw [hsplit, splitLines_line l hl _, ih t hls']
      simp

/-- Incrementality of the splitter: splitting `a ++ b` splits `a`, then
splits its remainder glued to `b`. -/
theorem splitLines_append (a b : List Char) :
    splitLines (a ++ b)
      = ((splitLines a).1 ++ (splitLines ((splitLines a).2 ++ b)).1,
         (splitLines ((splitLines a).2 ++ b)).2) := by
  conv_lhs => rw [← splitLines_decomp a]
  rw [List.append_assoc]
  exact splitLines_flatten_any (splitLines a).1 ((splitLines a).2 ++ b)
    (splitLines_lines a)

/-- A buffer of `N` complete lines followed by a line-feed-free partial
line splits into exactly those `N` lines with the partial line as
remainder. -/
theorem splitLines_flatten (ls : List (List Char)) (p : List Char)
    (hls : ∀ l ∈ ls, '\n' ∉ l) (hp : '\n' ∉ p) :
    splitLines ((ls.map (fun l => l ++ ['\n'])).flatten ++ p) = (ls, p) := by
  rw [splitLines_flatten_any ls p hls, splitLines_no_newline p hp]
  simp

/-- Feeding the chunks one at a time through the buffer loop is the same as
extracting the lines of their concatenation. -/
theorem feedChunks_flatten : ∀ (cs : List (List Char)) (buffer : List Char),
    '\n' ∉ buffer →
    feedChunks cs buffer = extractLines (buffer ++ cs.flatten) := by
  intro cs
  induction cs with
  | nil =>
      intro buffer hb
      rw [feedChunks]
      simp [extractLines, splitLines_no_newline buffer hb]
  | cons c cs' ih =>
      intro buffer hb
      rw [feedChunks]
      simp only [extractLines]
      rw [ih _ (splitLines_rem (buffer ++ c))]
      simp only [extractLines, List.flatten_cons]
      rw [← List.append_assoc, splitLines_append (buffer ++ c) cs'.flatten]
      simp

/-- The drain loop over good chunks emits exactly the token events of the
lines the buffer loop extracts, with the same final buffer. -/
theorem drainChunks_map_ok (parse : List Char → Option Json) :
    ∀ (cs : List (List Char)) (buffer : List Char),
      drainChunks parse (cs.map ChunkResult.ok) buffer
        = ((feedChunks cs buffer).1.filterMap (lineEvent parse),
           (feedChunks cs buffer).2) := by
  intro cs
  induction cs with
  | nil => intro buffer; rw [List.map_nil, drainChunks, feedChunks]; rfl
  | cons c cs' ih =>
      intro buffer
      rw [List.map_cons, drainChunks, feedChunks, ih]
      simp [List.filterMap_append]

/-- A line can only ever yield a token-fragment event. -/
theorem lineEvent_isToken (parse : List Char → Option Json) (l : List Char)
    (e : OutEvent) (h : lineEvent parse l = some e) : e.isToken = true := by
  unfold lineEvent at h
  split at h
  · split at h
    · split at h
      · cases h; rfl
      · exact Option.noConfusion h
    · exact Option.noConfusion h
  · exact Option.noConfusion h

/-- Every event emitted by the drain loop is a token fragment: the loop
itself never emits a sources, error-notice or done event. -/
theorem drainChunks_all_tokens (parse : List Char → Option Json) :
    ∀ (cs : List ChunkResult) (buffer : List Char),
      ∀ e ∈ (drainChunks parse cs buffer).1, e.isToken = true := by
  intro cs
  induction cs with
  | nil =>
      intro buffer e he
      simp [drainChunks] at he
  | cons c rest ih =>
      intro buffer e he
      cases c with
      | readErr => simp [drainChunks] at he
      | badUtf8 =>
          rw [drainChunks] at he
          exact ih buffer e he
      | ok text =>
          rw [drainChunks] at he
          simp only [List.mem_append] at he
          rcases he with he | he
          · rcases List.mem_filterMap.mp he with ⟨l, _, hl⟩
            exact lineEvent_isToken parse l e hl
          · exact ih _ e he

/-- A read error stops the drain loop at once: whatever chunk results
follow it are never consumed. -/
theorem drainChunks_stops_at_readErr (parse : List Char → Option Json) :
    ∀ (pre rest : List ChunkResult) (buffer : List Char),
      ChunkResult.readErr ∉ pre →
      drainChunks parse (pre ++ .readErr :: rest) buffer
        = drainChunks parse pre buffer := by
  intro pre
  induction pre with
  | nil =>
      intro rest buffer _
      rw [List.nil_append, drainChunks, drainChunks]
  | cons c pre' ih =>
      intro rest buffer hpre
      have hc : c ≠ .readErr := fun h => hpre (h ▸ List.mem_cons_self c pre')
      have hpre' : ChunkResult.readErr ∉ pre' :=
        fun h => hpre (List.mem_cons_of_mem c h)
      cases c with
      | readErr => exact absurd rfl hc
      | badUtf8 =>
          rw [List.cons_append, drainChunks, drainChunks]
          exact ih rest buffer hpre'
      | ok text =>
          rw [List.cons_append, drainChunks, drainChunks]
          rw [ih rest _ hpre']

/-! ## Theorems -/

/-- C1: on every execution path — dial success, dial failure, non-success
upstream status, or mid-stream read error (any dial result and any chunk
sequence) — the emitted event sequence begins with exactly one sources
event carrying the full citation list (even if empty) before any token
event, and ends with exactly one done event. -/
theorem c1_event_sequence_shape (parse : List Char → Option Json)
    (dial : DialResult) (srcs : List Source) :
    (build_sse_stream parse dial srcs).head? = some (.sources srcs)
    ∧ (build_sse_stream parse dial srcs).countP OutEvent.isSources = 1
    ∧ (build_sse_stream parse dial srcs).getLast? = some .done
    ∧ (build_sse_stream parse dial srcs).countP OutEvent.isDone = 1 := by
  have hdrain : ∀ cs buffer,
      ((drainChunks parse cs buffer).1.countP OutEvent.isSources = 0
        ∧ (drainChunks parse cs buffer).1.countP OutEvent.isDone = 0) := by
    intro cs buffer
    constructor <;>
      [skip; skip] <;>
      · rw [List.countP_eq_zero]
        intro e he
        have := drainChunks_all_tokens parse cs buffer e he
        cases e <;> simp_all [OutEvent.isToken, OutEvent.isSources,
          OutEvent.isDone]
  cases dial with
  | connError =>
      refine ⟨rfl, ?_, rfl, ?_⟩ <;>
        simp [build_sse_stream, List.countP_cons, OutEvent.isSources,
          OutEvent.isDone, OutEvent.isErrorNotice]
  | response status chunks =>
      by_cases hs : statusIsSuccess status = true
      · refine ⟨?_, ?_, ?_, ?_⟩
        · simp [build_sse_stream, hs]
        · simp only [build_sse_stream, hs, if_true]
          rw [List.countP_cons, List.countP_append, (hdrain chunks []).1]
          simp [List.countP_singleton, OutEvent.isSources]
        · simp only [build_sse_stream, hs, if_true]
          rw [List.getLast?_cons, List.getLast?_concat]
          rfl
        · simp only [build_sse_stream, hs, if_true]
          rw [List.countP_cons, List.countP_append, (hdrain chunks []).2]
          simp [List.countP_singleton, OutEvent.isDone]
      · refine ⟨?_, ?_, ?_, ?_⟩ <;>
          simp [build_sse_stream, hs, List.countP_cons, OutEvent.isSources,
            OutEvent.isDone]

/-- C9: a chunk-read error ends the drain loop immediately (the events are
those of the prefix before the error; nothing after the error is consumed)
and the stream still proceeds to the terminal done event with no
error-notice event anywhere; a connection failure, and a non-success
upstream status, each emit exactly one error-notice event followed by the
done event.  `build_sse_stream` is a total function into an event list, so
no failure is ever propagated to the caller. -/
theorem c9_failure_paths (parse : List Char → Option Json)
    (srcs : List Source) (status : Nat) (pre rest : List ChunkResult)
    (hsucc : statusIsSuccess status = true)
    (hpre : ChunkResult.readErr ∉ pre) :
    (build_sse_stream parse (.response status (pre ++ .readErr :: rest)) srcs
       = build_sse_stream parse (.response status pre) srcs)
    ∧ (build_sse_stream parse (.response status (pre ++ .readErr :: rest))
        srcs).countP OutEvent.isErrorNotice = 0
    ∧ (build_sse_stream parse (.response status (pre ++ .readErr :: rest))
        srcs).getLast? = some .done
    ∧ build_sse_stream parse .connError srcs
        = [.sources srcs, .errorNotice "LLM service unavailable", .done]
    ∧ ∀ st chunks, statusIsSuccess st = false →
        build_sse_stream parse (.response st chunks) srcs
          = [.sources srcs, .errorNotice "LLM service returned an error",
             .done] := by
  refine ⟨?_, ?_, ?_, rfl, ?_⟩
  · simp only [build_sse_stream, hsucc, if_true]
    rw [drainChunks_stops_at_readErr parse pre rest [] hpre]
  · have h0 : (drainChunks parse (pre ++ .readErr :: rest) []).1.countP
        OutEvent.isErrorNotice = 0 := by
      rw [List.countP_eq_zero]
      intro e he
      have := drainChunks_all_tokens parse _ [] e he
      cases e <;> simp_all [OutEvent.isToken, OutEvent.isErrorNotice]
    simp only [build_sse_stream, hsucc, if_true]
    rw [List.countP_cons, List.countP_append, h0]
    simp [List.countP_singleton, OutEvent.isErrorNotice]
  · simp only [build_sse_stream, hsucc, if_true]
    rw [List.getLast?_cons, List.getLast?_concat]
    rfl
  · intro st chunks hst
    simp [build_sse_stream, hst]

/-- Witness for C9 at concrete inputs. -/
theorem c9_failure_paths_witness :
    (build_sse_stream (fun _ => none)
        (.response 200 ([ChunkResult.ok ['x']] ++ .readErr ::
          [ChunkResult.ok ['y']])) []
       = build_sse_stream (fun _ => none)
           (.response 200 [ChunkResult.ok ['x']]) [])
    ∧ (build_sse_stream (fun _ => none)
        (.response 200 ([ChunkResult.ok ['x']] ++ .readErr ::
          [ChunkResult.ok ['y']])) []).countP OutEvent.isErrorNotice = 0
    ∧ (build_sse_stream (fun _ => none)
        (.response 200 ([ChunkResult.ok ['x']] ++ .readErr ::
          [ChunkResult.ok ['y']])) []).getLast? = some .done
    ∧ build_sse_stream (fun _ => none) .connError []
        = [.sources [], .errorNotice "LLM service unavailable", .done]
    ∧ ∀ st chunks, statusIsSuccess st = false →
        build_sse_stream (fun _ => none) (.response st chunks) []
          = [.sources [], .errorNotice "LLM service returned an error",
             .done] :=
  c9_failure_paths (fun _ => none) [] 200 [ChunkResult.ok ['x']]
    [ChunkResult.ok ['y']] (by decide) (by decide)

/-- C2: for any sequence of text chunks whose concatenation forms `N`
complete lines (each terminated by a line feed, no line feed inside a
line) followed by a partial line, the relay's buffer loop extracts and
processes exactly those `N` lines — each with its trailing carriage
returns stripped, as `trim_end_matches('\r')` does — and the trailing
partial line is preserved verbatim in the buffer for the next chunk. -/
theorem c2_buffer_loop (chunks ls : List (List Char)) (p : List Char)
    (hjoin : chunks.flatten = (ls.map (fun l => l ++ ['\n'])).flatten ++ p)
    (hls : ∀ l ∈ ls, '\n' ∉ l) (hp : '\n' ∉ p) :
    feedChunks chunks [] = (ls.map trimEndCr, p)
    ∧ (feedChunks chunks []).1.length = ls.length := by
  have h1 : feedChunks chunks [] = extractLines chunks.flatten := by
    simpa using feedChunks_flatten chunks [] (by simp)
  rw [h1, hjoin]
  simp only [extractLines, splitLines_flatten ls p hls hp]
  simp

/-- Witness for C2: chunks `"ab\nc"` and `"de\r\nf"` concatenate to two
complete lines `"ab"`, `"cde\r"` plus partial `"f"`; the loop yields the
two lines (carriage return stripped) and keeps `"f"`. -/
theorem c2_buffer_loop_witness :
    feedChunks [['a', 'b', '\n', 'c'], ['d', 'e', '\r', '\n', 'f']] []
      = ([['a', 'b'], ['c', 'd', 'e']], ['f'])
    ∧ (feedChunks [['a', 'b', '\n', 'c'],
        ['d', 'e', '\r', '\n', 'f']] []).1.length
      = ([['a', 'b'], ['c', 'd', 'e', '\r']] : List (List Char)).length :=
  c2_buffer_loop [['a', 'b', '\n', 'c'], ['d', 'e', '\r', '\n', 'f']]
    [['a', 'b'], ['c', 'd', 'e', '\r']] ['f']
    (by decide) (by decide) (by decide)

/-- C3: for every valid (subject, display name, role, signing key,
ttl_seconds), verifying a token produced by `create_access_token` with the
same key succeeds and returns claims whose `sub`, `username` and `role`
equal the inputs, and whose `exp` minus `iat` equals `ttl_seconds`. -/
theorem c3_access_roundtrip (user_id username role secret : String)
    (ttl now : Int) (httl : 0 ≤ ttl) :
    verify_token (create_access_token user_id username role secret ttl now)
        secret now
      = .ok { sub := user_id, username := username, role := role
              exp := now + ttl, iat := now }
    ∧ (now + ttl) - now = ttl := by
  refine ⟨?_, by omega⟩
  have hexp : ¬ (now + ttl < now - (60 : Int)) := by omega
  simp [verify_token, create_access_token, macSign, validationLeeway, hexp]

/-- Witness for C3 at a concrete input. -/
theorem c3_access_roundtrip_witness :
    verify_token (create_access_token "11111111-2222-3333-4444-555555555555"
        "alice" "admin" "topsecret" 3600 1700000000) "topsecret" 1700000000
      = .ok { sub := "11111111-2222-3333-4444-555555555555"
              username := "alice", role := "admin"
              exp := 1700000000 + 3600, iat := 1700000000 }
    ∧ (1700000000 + 3600 : Int) - 1700000000 = 3600 :=
  c3_access_roundtrip "11111111-2222-3333-4444-555555555555" "alice" "admin"
    "topsecret" 3600 1700000000 (by decide)

/-- C4 counterexample: (a) a token whose `exp` is 30 seconds in the past
(and whose signature is valid) is accepted, because `Validation::default()`
of the `jsonwebtoken` crate carries a 60-second leeway — so expiry is not a
strict comparison against the verifier's clock and clock skew IS
compensated; (b) an expired token whose signature is invalid fails with
`InvalidSignature`, not `Expired`, because the signature is checked first. -/
theorem c4_counterexample :
    (verify_token (create_access_token "u" "alice" "admin" "k" (-30) 1000)
        "k" 1000
      = .ok { sub := "u", username := "alice", role := "admin"
              exp := 970, iat := 1000 })
    ∧ (verify_token
        { claims := { sub := "u", username := "alice", role := "admin"
                      exp := 0, iat := -100 }
          tag := macSign "other" { sub := "u", username := "alice"
                                   role := "admin", exp := 0, iat := -100 } }
        "k" 1000
      = .error .invalidSignature) :=
  ⟨rfl, rfl⟩

/-- C4 amended: a validly-signed token fails with `Expired` iff its `exp`
is more than the 60-second default leeway in the past — the comparison is a
strict less-than against the verifier's clock minus the leeway, not against
the clock itself; and an invalidly-signed token fails with
`InvalidSignature` regardless of expiry, because signature verification
runs before claim validation. -/
theorem c4_amended (tok : Token) (secret : String) (now : Int) :
    (tok.tag = macSign secret tok.claims →
      (verify_token tok secret now = .error .expiredSignature
        ↔ tok.claims.exp < now - validationLeeway))
    ∧ (tok.tag ≠ macSign secret tok.claims →
      verify_token tok secret now = .error .invalidSignature) := by
  constructor
  · intro hsig
    constructor
    · intro hv
      by_contra hexp
      simp only [verify_token, if_pos hsig, if_neg hexp] at hv
      exact Except.noConfusion hv
    · intro hexp
      simp only [verify_token, if_pos hsig, if_pos hexp]
  · intro hsig
    simp only [verify_token, if_neg hsig]

/-- Witness for C4 amended at concrete inputs. -/
theorem c4_amended_witness :
    (verify_token
        { claims := { sub := "u", username := "n", role := "r"
                      exp := 0, iat := 0 }
          tag := macSign "k" { sub := "u", username := "n", role := "r"
                               exp := 0, iat := 0 } } "k" 1000
      = .error .expiredSignature)
    ∧ (verify_token
        { claims := { sub := "u", username := "n", role := "r"
                      exp := 0, iat := 0 }
          tag := macSign "bad" { sub := "u", username := "n", role := "r"
                                 exp := 0, iat := 0 } } "k" 1000
      = .error .invalidSignature) :=
  ⟨((c4_amended
      { claims := { sub := "u", username := "n", role := "r"
                    exp := 0, iat := 0 }
        tag := macSign "k" { sub := "u", username := "n", role := "r"
                             exp := 0, iat := 0 } } "k" 1000).1
      (by decide)).mpr (by decide),
   (c4_amended
      { claims := { sub := "u", username := "n", role := "r"
                    exp := 0, iat := 0 }
        tag := macSign "bad" { sub := "u", username := "n", role := "r"
                               exp := 0, iat := 0 } } "k" 1000).2
      (by decide)⟩

/-- C7: every retrieval-collaborator failure — network error or timeout
(outer send error) and non-parseable response body (inner parse error) —
makes the context-fetch step return `([], [])`; `fetch_context` is a total
function, so no failure is ever raised or propagated. -/
theorem c7_fetch_context_absorbs_failures :
    fetch_context (.error ()) = ([], [])
    ∧ fetch_context (.ok (.error ())) = ([], []) :=
  ⟨rfl, rfl⟩

/-- The two rejection bodies of the middleware differ (they carry different
message strings). -/
theorem unauthorizedBody_ne_messages :
    unauthorizedBody "Missing or invalid authorization header"
      ≠ unauthorizedBody "Invalid or expired token" := by
  intro h
  simp only [unauthorizedBody, Json.obj.injEq, List.cons.injEq,
    Prod.mk.injEq, Json.str.injEq, and_true, true_and] at h
  exact absurd h (by decide)

/-- C5 counterexample: the Session Guard's rejection outcomes are NOT
identical in status and body across the four failure cases: a request with
no Authorization header is rejected with the
"Missing or invalid authorization header" body, while a request whose token
fails verification is rejected with the "Invalid or expired token" body,
and the two bodies differ.  (The verifier is instantiated with a function
rejecting every string, as `jsonwebtoken` does for a non-token string.) -/
theorem c5_counterexample :
    auth_middleware (fun _ => .error .malformed) some none
      = .rejected ⟨unauthorizedStatus,
          unauthorizedBody "Missing or invalid authorization header"⟩
    ∧ auth_middleware (fun _ => .error .malformed) some (some "Bearer abc")
      = .rejected ⟨unauthorizedStatus,
          unauthorizedBody "Invalid or expired token"⟩
    ∧ unauthorizedBody "Missing or invalid authorization header"
        ≠ unauthorizedBody "Invalid or expired token" :=
  ⟨rfl, rfl, unauthorizedBody_ne_messages⟩

/-- C5 amended: all four failure cases (no Authorization header, non-Bearer
scheme, empty token value, failed verification) are rejected with the same
401 Unauthorized status, and the response is identical within each of two
groups — no-header and non-Bearer share the missing-credential body, empty
token and failed verification share the invalid-credential body — but the
two groups' bodies differ, so the outcome is symmetric in status only, not
in body. -/
theorem c5_amended (verify : String → Except JwtError Claims)
    (parseUuid : String → Option String) (e1 e2 : JwtError)
    (hempty : verify "" = .error e1) (habc : verify "abc" = .error e2) :
    (auth_middleware verify parseUuid none
       = .rejected ⟨unauthorizedStatus,
           unauthorizedBody "Missing or invalid authorization header"⟩)
    ∧ (auth_middleware verify parseUuid (some "Basic abc")
       = .rejected ⟨unauthorizedStatus,
           unauthorizedBody "Missing or invalid authorization header"⟩)
    ∧ (auth_middleware verify parseUuid (some "Bearer ")
       = .rejected ⟨unauthorizedStatus,
           unauthorizedBody "Invalid or expired token"⟩)
    ∧ (auth_middleware verify parseUuid (some "Bearer abc")
       = .rejected ⟨unauthorizedStatus,
           unauthorizedBody "Invalid or expired token"⟩)
    ∧ unauthorizedBody "Missing or invalid authorization header"
        ≠ unauthorizedBody "Invalid or expired token" := by
  have hx1 : extractBearerToken none = none := rfl
  have hx2 : extractBearerToken (some "Basic abc") = none := rfl
  have hx3 : extractBearerToken (some "Bearer ") = some "" := rfl
  have hx4 : extractBearerToken (some "Bearer abc") = some "abc" := rfl
  refine ⟨?_, ?_, ?_, ?_, ?_⟩
  · simp only [auth_middleware, hx1]
  · simp only [auth_middleware, hx2]
  · simp only [auth_middleware, hx3, hempty]
  · simp only [auth_middleware, hx4, habc]
  · exact unauthorizedBody_ne_messages

/-- Witness for C5 amended at a concrete verifier. -/
theorem c5_amended_witness :
    (auth_middleware (fun _ => .error .malformed) some none
       = .rejected ⟨unauthorizedStatus,
           unauthorizedBody "Missing or invalid authorization header"⟩)
    ∧ (auth_middleware (fun _ => .error .malformed) some (some "Basic abc")
       = .rejected ⟨unauthorizedStatus,
           unauthorizedBody "Missing or invalid authorization header"⟩)
    ∧ (auth_middleware (fun _ => .error .malformed) some (some "Bearer ")
       = .rejected ⟨unauthorizedStatus,
           unauthorizedBody "Invalid or expired token"⟩)
    ∧ (auth_middleware (fun _ => .error .malformed) some (some "Bearer abc")
       = .rejected ⟨unauthorizedStatus,
           unauthorizedBody "Invalid or expired token"⟩)
    ∧ unauthorizedBody "Missing or invalid authorization header"
        ≠ unauthorizedBody "Invalid or expired token" :=
  c5_amended (fun _ => .error .malformed) some .malformed .malformed rfl rfl

/-- C6 counterexample: a request carrying an empty token value
(`Authorization: Bearer `) is NOT rejected before verification: the outcome
depends on the verify function (a rejecting verifier yields the
invalid-credential rejection, an accepting verifier lets the request
proceed), so `verify_token` is invoked on such requests, and the rejection
that does occur carries the invalid-credential body, not the
missing-credential one. -/
theorem c6_counterexample :
    auth_middleware (fun _ => .error .malformed) some (some "Bearer ")
      = .rejected ⟨unauthorizedStatus,
          unauthorizedBody "Invalid or expired token"⟩
    ∧ auth_middleware
        (fun _ => .ok { sub := "u", username := "n", role := "r"
                        exp := 0, iat := 0 }) some (some "Bearer ")
      = .accepted ⟨"u", "n", "r"⟩ :=
  ⟨rfl, rfl⟩

/-- C6 amended: a request with no Authorization header or a non-Bearer
scheme is rejected with the missing-credential response before any
cryptographic work — the outcome does not depend on the verify function at
all — whereas a request with the Bearer scheme and an empty token value is
passed to `verify_token` and rejected with the invalid-credential
response. -/
theorem c6_amended (v1 v2 : String → Except JwtError Claims)
    (parseUuid : String → Option String) (header : Option String)
    (hmiss : extractBearerToken header = none) :
    (auth_middleware v1 parseUuid header
       = .rejected ⟨unauthorizedStatus,
           unauthorizedBody "Missing or invalid authorization header"⟩)
    ∧ auth_middleware v1 parseUuid header = auth_middleware v2 parseUuid header
    ∧ ∀ e : JwtError, v1 "" = .error e →
        auth_middleware v1 parseUuid (some "Bearer ")
          = .rejected ⟨unauthorizedStatus,
              unauthorizedBody "Invalid or expired token"⟩ := by
  have hx : extractBearerToken (some "Bearer ") = some "" := rfl
  refine ⟨?_, ?_, ?_⟩
  · simp only [auth_middleware, hmiss]
  · simp only [auth_middleware, hmiss]
  · intro e he
    simp only [auth_middleware, hx, he]

/-- Witness for C6 amended at a concrete verifier and header. -/
theorem c6_amended_witness :
    (auth_middleware (fun _ => .error .malformed) some (some "Basic abc")
       = .rejected ⟨unauthorizedStatus,
           unauthorizedBody "Missing or invalid authorization header"⟩)
    ∧ auth_middleware (fun _ => .error .malformed) some (some "Basic abc")
        = auth_middleware (fun _ => .error .expiredSignature) some
            (some "Basic abc")
    ∧ auth_middleware (fun _ => .error .malformed) some (some "Bearer ")
        = .rejected ⟨unauthorizedStatus,
            unauthorizedBody "Invalid or expired token"⟩ :=
  ⟨(c6_amended (fun _ => .error .malformed)
      (fun _ => .error .expiredSignature) some (some "Basic abc") rfl).1,
   (c6_amended (fun _ => .error .malformed)
      (fun _ => .error .expiredSignature) some (some "Basic abc") rfl).2.1,
   (c6_amended (fun _ => .error .malformed)
      (fun _ => .error .expiredSignature) some (some "Basic abc") rfl).2.2
     .malformed rfl⟩

/-- C8: for a retrieval response holding 3 valid items and 1 item (placed
in the middle) whose payload lacks a `text` field, extraction returns
exactly the 3 non-empty context fragments — the item lacking text
contributes no fragment — and exactly 4 citations, the malformed item's
absent fields defaulting to `""` / `0` instead of the item being dropped;
the malformed item does not abort extraction of the item after it. -/
theorem c8_extraction (t1 t2 t3 d1 d2 d3 f1 f2 f3 g1 g2 g3 : String)
    (s1 s2 s3 : Rat)
    (ht1 : t1 ≠ "") (ht2 : t2 ≠ "") (ht3 : t3 ≠ "") :
    extract_search_results
      (.obj [("data", .obj [("results", .arr
        [ .obj [("score", .num s1), ("payload", .obj
            [("text", .str t1), ("document_id", .str d1),
             ("file_name", .str f1), ("heading", .str g1)])],
          .obj [("score", .num s2), ("payload", .obj
            [("text", .str t2), ("document_id", .str d2),
             ("file_name", .str f2), ("heading", .str g2)])],
          .obj [("payload", .obj [])],
          .obj [("score", .num s3), ("payload", .obj
            [("text", .str t3), ("document_id", .str d3),
             ("file_name", .str f3), ("heading", .str g3)])] ])])])
      = ([t1, t2, t3],
         [ { document_id := d1, file_name := f1, heading := g1, score := s1 },
           { document_id := d2, file_name := f2, heading := g2, score := s2 },
           { document_id := "", file_name := "", heading := "", score := 0 },
           { document_id := d3, file_name := f3, heading := g3, score := s3 } ]) := by
  simp [extract_search_results, Json.get, Json.as_array, Json.as_str,
    Json.as_f64, List.lookup, ht1, ht2, ht3]

/-- Witness for C8 at concrete field values. -/
theorem c8_extraction_witness :
    extract_search_results
      (.obj [("data", .obj [("results", .arr
        [ .obj [("score", .num 3), ("payload", .obj
            [("text", .str "alpha"), ("document_id", .str "doc1"),
             ("file_name", .str "a.md"), ("heading", .str "H1")])],
          .obj [("score", .num 2), ("payload", .obj
            [("text", .str "beta"), ("document_id", .str "doc2"),
             ("file_name", .str "b.md"), ("heading", .str "H2")])],
          .obj [("payload", .obj [])],
          .obj [("score", .num 1), ("payload", .obj
            [("text", .str "gamma"), ("document_id", .str "doc3"),
             ("file_name", .str "c.md"), ("heading", .str "H3")])] ])])])
      = (["alpha", "beta", "gamma"],
         [ { document_id := "doc1", file_name := "a.md", heading := "H1"
             score := 3 },
           { document_id := "doc2", file_name := "b.md", heading := "H2"
             score := 2 },
           { document_id := "", file_name := "", heading := "", score := 0 },
           { document_id := "doc3", file_name := "c.md", heading := "H3"
             score := 1 } ]) :=
  c8_extraction "alpha" "beta" "gamma" "doc1" "doc2" "doc3" "a.md" "b.md"
    "c.md" "H1" "H2" "H3" 3 2 1 (by decide) (by decide) (by decide)

/-- C10: access and refresh tokens are mutually indistinguishable to
verification: the `Claims` structure carries no token-type field, a refresh
token is literally an access token with a 604800-second ttl, and every
unexpired access token passes the very `verify_token` call the refresh
handler performs, so it is accepted where a refresh token is expected. -/
theorem c10_access_refresh_indistinguishable
    (user_id username role secret : String) (now : Int) :
    create_refresh_token user_id username role secret now
      = create_access_token user_id username role secret 604800 now
    ∧ ∀ ttl vnow : Int, vnow - validationLeeway ≤ now + ttl →
        refresh_verify
            (create_access_token user_id username role secret ttl now)
            secret vnow
          = .ok { sub := user_id, username := username, role := role
                  exp := now + ttl, iat := now } := by
  refine ⟨rfl, fun ttl vnow hfresh => ?_⟩
  have hexp : ¬ (now + ttl < vnow - validationLeeway) := by omega
  simp [refresh_verify, verify_token, create_access_token, macSign, hexp]

/-- Witness for C10 at a concrete input. -/
theorem c10_access_refresh_indistinguishable_witness :
    create_refresh_token "u" "alice" "admin" "k" 500
      = create_access_token "u" "alice" "admin" "k" 604800 500
    ∧ refresh_verify (create_access_token "u" "alice" "admin" "k" 3600 500)
        "k" 600
      = .ok { sub := "u", username := "alice", role := "admin"
              exp := 500 + 3600, iat := 500 } :=
  ⟨(c10_access_refresh_indistinguishable "u" "alice" "admin" "k" 500).1,
   (c10_access_refresh_indistinguishable "u" "alice" "admin" "k" 500).2
     3600 600 (by decide)⟩

end LocalLLM
